import Mathlib

/-! The hyprlock authentication coordinator (`src/core/Auth.cpp`).

A shallow embedding of `CAuth` and of the PAM conversation callback `conv`.

* C++ `std::string` values are Lean `String`s; the bytes given to `SHA256` are the
  UTF-8 bytes of the string.
* The worker thread is modelled sequentially over a `World`: the `CAuth` object, a
  trace of the calls made to external collaborators (`g_pHyprlock`, `Debug::log`,
  libpam), and two counters that index the answers of the environment.
* The environment `Env` answers `g_pHyprlock->isUnlocked()` and decides how each
  blocking `waitForInput()` is ended by the UI thread (a `submitInput` or a shutdown).
* libpam is modelled by `PamScript`: the strategy by which `pam_authenticate` drives
  the conversation callback and finally returns a code.
-/

namespace Auth

/-! ## SHA-256 (`SHA256` of OpenSSL, FIPS 180-4), 32-bit words as `Nat` modulo `2 ^ 32` -/

/-- Rotate a 32-bit word right by `n` bits. -/
def rotr (x n : Nat) : Nat := ((x >>> n) ||| (x <<< (32 - n))) % 2 ^ 32

/-- The 64 round constants of FIPS 180-4 (the first 32 bits of the fractional parts of the
cube roots of the first 64 primes), in decimal. -/
def shaK : List Nat := [
  1116352408, 1899447441, 3049323471, 3921009573, 961987163, 1508970993,
  2453635748, 2870763221, 3624381080, 310598401, 607225278, 1426881987,
  1925078388, 2162078206, 2614888103, 3248222580, 3835390401, 4022224774,
  264347078, 604807628, 770255983, 1249150122, 1555081692, 1996064986,
  2554220882, 2821834349, 2952996808, 3210313671, 3336571891, 3584528711,
  113926993, 338241895, 666307205, 773529912, 1294757372, 1396182291,
  1695183700, 1986661051, 2177026350, 2456956037, 2730485921, 2820302411,
  3259730800, 3345764771, 3516065817, 3600352804, 4094571909, 275423344,
  430227734, 506948616, 659060556, 883997877, 958139571, 1322822218,
  1537002063, 1747873779, 1955562222, 2024104815, 2227730452, 2361852424,
  2428436474, 2756734187, 3204031479, 3329325298]

/-- The `k` low bytes of `x`, most significant first. -/
def beBytes : Nat → Nat → List Nat
  | 0, _ => []
  | k + 1, x => (x >>> (8 * k)) % 256 :: beBytes k x

/-- Message padding: a `0x80` byte, zero bytes up to 56 modulo 64, the bit length on 8 bytes. -/
def shaPad (msg : List Nat) : List Nat :=
  msg ++ 0x80 :: (List.replicate ((119 - msg.length % 64) % 64) 0 ++ beBytes 8 (8 * msg.length))

/-- A big-endian 32-bit word from four bytes. -/
def beWord : List Nat → Nat
  | [a, b, c, d] => a * 2 ^ 24 + b * 2 ^ 16 + c * 2 ^ 8 + d
  | _ => 0

/-- The first `k` big-endian words of a byte list. -/
def wordsOf : Nat → List Nat → List Nat
  | 0, _ => []
  | k + 1, bs => beWord (bs.take 4) :: wordsOf k (bs.drop 4)

/-- Extend the message schedule by `k` words. -/
def schedule : Nat → List Nat → List Nat
  | 0, w => w
  | k + 1, w =>
    let n := w.length
    let w15 := w.getD (n - 15) 0
    let w2 := w.getD (n - 2) 0
    let s0 := rotr w15 7 ^^^ rotr w15 18 ^^^ (w15 >>> 3)
    let s1 := rotr w2 17 ^^^ rotr w2 19 ^^^ (w2 >>> 10)
    schedule k (w ++ [(w.getD (n - 16) 0 + s0 + w.getD (n - 7) 0 + s1) % 2 ^ 32])

/-- The eight working variables / chaining values. -/
structure Regs where
  a : Nat
  b : Nat
  c : Nat
  d : Nat
  e : Nat
  f : Nat
  g : Nat
  h : Nat

/-- One round of the compression function, for the pair (constant, schedule word). -/
def shaRound (r : Regs) (kw : Nat × Nat) : Regs :=
  let S1 := rotr r.e 6 ^^^ rotr r.e 11 ^^^ rotr r.e 25
  let ch := (r.e &&& r.f) ^^^ ((r.e ^^^ (2 ^ 32 - 1)) &&& r.g)
  let t1 := (r.h + S1 + ch + kw.1 + kw.2) % 2 ^ 32
  let S0 := rotr r.a 2 ^^^ rotr r.a 13 ^^^ rotr r.a 22
  let maj := (r.a &&& r.b) ^^^ (r.a &&& r.c) ^^^ (r.b &&& r.c)
  let t2 := (S0 + maj) % 2 ^ 32
  ⟨(t1 + t2) % 2 ^ 32, r.a, r.b, r.c, (r.d + t1) % 2 ^ 32, r.e, r.f, r.g⟩

/-- Compression of one 64-byte block. -/
def compress (hs : Regs) (block : List Nat) : Regs :=
  let w := schedule 48 (wordsOf 16 block)
  let r := (shaK.zip w).foldl shaRound hs
  ⟨(hs.a + r.a) % 2 ^ 32, (hs.b + r.b) % 2 ^ 32, (hs.c + r.c) % 2 ^ 32, (hs.d + r.d) % 2 ^ 32,
   (hs.e + r.e) % 2 ^ 32, (hs.f + r.f) % 2 ^ 32, (hs.g + r.g) % 2 ^ 32, (hs.h + r.h) % 2 ^ 32⟩

/-- Compress `k` consecutive blocks. -/
def shaBlocks : Nat → Regs → List Nat → Regs
  | 0, hs, _ => hs
  | k + 1, hs, bs => shaBlocks k (compress hs (bs.take 64)) (bs.drop 64)

/-- Library call `SHA256(password, length, buffer)`: the 32 digest bytes of a byte string. -/
def SHA256 (msg : List Nat) : List Nat :=
  let p := shaPad msg
  let r := shaBlocks (p.length / 64)
    ⟨0x6a09e667, 0xbb67ae85, 0x3c6ef372, 0xa54ff53a,
     0x510e527f, 0x9b05688c, 0x1f83d9ab, 0x5be0cd19⟩ p
  [r.a, r.b, r.c, r.d, r.e, r.f, r.g, r.h].flatMap (beBytes 4)

/-- Constant `SHA256_DIGEST_LENGTH`. -/
def SHA256_DIGEST_LENGTH : Nat := 32

/-! ## The hex rendering of the digest (`Auth.cpp` lines 109-115) -/

/-- The bytes of a `std::string`. -/
def stringBytes (s : String) : List Nat :=
  (s.data.flatMap String.utf8EncodeChar).map UInt8.toNat

/-- A hex digit as `std::hex` prints it: lower case. -/
def hexDigit (n : Nat) : Char := "0123456789abcdef".data.getD n '0'

/-- The stream insertion `ss << std::hex << std::setfill('0') << std::setw(2) << (int)buffer[i]`:
a byte is below 256, so it prints as exactly two lower-case hex digits. -/
def hexByte (b : Nat) : List Char := [hexDigit (b / 16), hexDigit (b % 16)]

/-- The local `password_hash` of `CAuth::auth`: the loop over `i < SHA256_DIGEST_LENGTH`. -/
def password_hash (input : String) : String :=
  String.mk (((SHA256 (stringBytes input)).take SHA256_DIGEST_LENGTH).flatMap hexByte)

/-! ## PAM constants (`security/_pam_types.h`) -/

/-- Return code: success. -/
def PAM_SUCCESS : Int := 0
/-- Return code: authentication failure. -/
def PAM_AUTH_ERR : Int := 7
/-- Return code: conversation failure. -/
def PAM_CONV_ERR : Int := 19
/-- Message style: prompt, input not echoed. -/
def PAM_PROMPT_ECHO_OFF : Int := 1
/-- Message style: prompt, input echoed. -/
def PAM_PROMPT_ECHO_ON : Int := 2
/-- Message style: error message. -/
def PAM_ERROR_MSG : Int := 3
/-- Message style: informational text. -/
def PAM_TEXT_INFO : Int := 4

/-- The C `struct pam_message`. -/
structure pam_message where
  msg_style : Int
  msg : String
deriving DecidableEq

/-! ## Data model -/

/-- The fields of `CAuth::SPamConversationState` used by `Auth.cpp`
(the mutex, the condition variable and `startTime` are handled separately). -/
structure SPamConversationState where
  input : String
  prompt : String
  failText : String
  waitingForPamAuth : Bool
  inputRequested : Bool
  failTextFromPam : Bool
deriving DecidableEq

/-- The members of `CAuth`. -/
structure CAuth where
  m_sConversationState : SPamConversationState
  m_bBlockInput : Bool
  m_bAuthenticated : Bool
  m_sPamModule : String
deriving DecidableEq

/-- Severity of a `Debug::log` line. -/
inductive LogLevel where
  | LOG
  | ERR
deriving DecidableEq

/-- Calls made by the worker to its collaborators, in program order. -/
inductive Event where
  /-- A call `Debug::log(level, fmt, args...)`. -/
  | log (level : LogLevel) (fmt : String) (args : List String)
  /-- A call `g_pHyprlock->enqueueForceUpdateTimers()`. -/
  | enqueueForceUpdateTimers
  /-- A call `g_pHyprlock->addTimer(1ms, clearInputTimerCallback, nullptr)`. -/
  | addTimerClearInput
  /-- A call `g_pHyprlock->addTimer(1ms, passwordCheckTimerCallback, nullptr)`. -/
  | addTimerPasswordCheck
  /-- Entry into `CAuth::waitForInput()`. -/
  | waitForInput
  /-- A call `inputSubmittedCondition.notify_all()`. -/
  | notify_all
  /-- A call `pam_start(service, user, &localConv, &handle)`. -/
  | pam_start (service : String)
  /-- A call `pam_authenticate(handle, 0)`. -/
  | pam_authenticate
  /-- A call `pam_end(handle, ret)`. -/
  | pam_end (ret : Int)
deriving DecidableEq

/-- How the UI thread ends one blocking `waitForInput()`: by a `submitInput(input)`, or by
setting `g_pHyprlock->m_bTerminate` and calling `terminate()`. -/
inductive WaitOutcome where
  | submitted (input : String)
  | terminated
deriving DecidableEq

/-- The environment of the worker thread. -/
structure Env where
  /-- The value returned by the `k`-th call of `g_pHyprlock->isUnlocked()`. -/
  isUnlocked : Nat → Bool
  /-- How the `k`-th blocking wait of `waitForInput()` is ended. -/
  wake : Nat → WaitOutcome

/-- The state threaded through the worker: the `CAuth` object, the trace of external calls,
and the number of `isUnlocked()` queries and of waits made so far. -/
structure World where
  auth : CAuth
  trace : List Event
  unlockQueries : Nat
  waits : Nat

/-- Append an event to the trace. -/
def World.emit (w : World) (e : Event) : World := { w with trace := w.trace ++ [e] }

/-- Shorthand for `m_sConversationState`. -/
def World.cs (w : World) : SPamConversationState := w.auth.m_sConversationState

/-- Update `m_sConversationState`. -/
def World.setCs (w : World) (f : SPamConversationState → SPamConversationState) : World :=
  { w with auth := { w.auth with m_sConversationState := f w.auth.m_sConversationState } }

/-- The call `g_pHyprlock->isUnlocked()`. -/
def isUnlocked (env : Env) (w : World) : Bool × World :=
  (env.isUnlocked w.unlockQueries, { w with unlockQueries := w.unlockQueries + 1 })

/-! ## `CAuth` operations -/

/-- Method `CAuth::resetConversation` (lines 232-237). -/
def resetConversation (w : World) : World :=
  w.setCs fun c =>
    { c with input := "", waitingForPamAuth := false, inputRequested := false,
             failTextFromPam := false }

/-- Method `CAuth::submitInput` (lines 173-183), called by the UI thread. -/
def submitInput (input : String) (w : World) : World :=
  let w := if !w.cs.inputRequested then
      w.emit (.log .ERR "SubmitInput called, but the auth thread is not waiting for input!" [])
    else w
  let w := w.setCs fun c =>
    { c with input := input, inputRequested := false, waitingForPamAuth := true }
  w.emit .notify_all

/-- Method `CAuth::terminate` (lines 228-230): a broadcast wake, no state change. -/
def terminate (w : World) : World := w.emit .notify_all

/-- The predicate `waitForInput()` blocks on (line 169), `m_bTerminate` being a member of
`g_pHyprlock`. -/
def waitPredicate (m_bTerminate : Bool) (w : World) : Bool :=
  !w.cs.inputRequested || m_bTerminate

/-- Method `CAuth::waitForInput` up to the point where the worker blocks (lines 163-168). -/
def waitForInputEnter (w : World) : World :=
  let w := (w.emit .waitForInput).emit .addTimerClearInput
  let w := { w with auth := { w.auth with m_bBlockInput := false } }
  w.setCs fun c => { c with waitingForPamAuth := false, inputRequested := true }

/-- What the UI thread does to end a wait. -/
def uiWake (o : WaitOutcome) (w : World) : World :=
  match o with
  | .submitted input => submitInput input w
  | .terminated => terminate w

/-- Method `CAuth::waitForInput` after the wait (line 170). -/
def waitForInputReturn (w : World) : World :=
  { w with auth := { w.auth with m_bBlockInput := true } }

/-- Method `CAuth::waitForInput` (lines 162-171): enter, be woken by the UI thread, return. -/
def waitForInput (env : Env) (w : World) : World :=
  let w0 := waitForInputEnter w
  let w1 := uiWake (env.wake w0.waits) w0
  waitForInputReturn { w1 with waits := w1.waits + 1 }

/-- Method `CAuth::getLastFailText` (lines 185-187). -/
def getLastFailText (w : World) : Option String :=
  if w.cs.failText.isEmpty then none else some w.cs.failText

/-- Method `CAuth::getLastPrompt` (lines 189-191). -/
def getLastPrompt (w : World) : Option String :=
  if w.cs.prompt.isEmpty then none else some w.cs.prompt

/-- Method `CAuth::isAuthenticated` (lines 153-155). -/
def isAuthenticated (w : World) : Bool := w.auth.m_bAuthenticated

/-- Method `CAuth::checkWaiting` (lines 224-226). -/
def checkWaiting (w : World) : Bool := w.auth.m_bBlockInput || w.cs.waitingForPamAuth

/-! ## The conversation callback `conv` (lines 19-63) -/

/-- Substring test `std::string::contains` on character lists. -/
def containsChars (pat : List Char) : List Char → Bool
  | [] => pat.isEmpty
  | c :: cs => pat.isPrefixOf (c :: cs) || containsChars pat cs

/-- The test `MSG.contains(pat)`. -/
def strContains (s pat : String) : Bool := containsChars pat.data s.data

/-- The result of handling one message inside the loop of `conv`. -/
structure MsgResult where
  /-- The `return PAM_CONV_ERR` of line 44 was taken. -/
  aborted : Bool
  /-- The field `pamReply[i].resp` (`none` is the null pointer left by `calloc`). -/
  resp : Option String
  /-- The local `initialPrompt` after the message. -/
  initialPrompt : Bool
  world : World

/-- The prompt case up to the unlock check (lines 28-40). -/
def promptStep (env : Env) (PROMPT : String) (initialPrompt : Bool) (w : World) : World :=
  let PROMPTCHANGED := PROMPT != w.cs.prompt
  let w := w.emit (.log .LOG "PAM_PROMPT: \x7b\x7d" [PROMPT])
  let w := if PROMPTCHANGED then w.emit .enqueueForceUpdateTimers else w
  if !initialPrompt && PROMPTCHANGED then
    waitForInput env (w.setCs fun c => { c with prompt := PROMPT })
  else w

/-- The informational case (lines 51-57). -/
def infoStep (MSG : String) (w : World) : World :=
  let w := w.emit (.log .LOG "PAM: \x7b\x7d" [MSG])
  if strContains MSG "left to unlock" then
    w.setCs fun c => { c with failText := MSG, failTextFromPam := true }
  else w

/-- The body of the `switch` for one message `msg[i]` (lines 25-58). -/
def convMessage (env : Env) (m : pam_message) (initialPrompt : Bool) (w : World) : MsgResult :=
  if m.msg_style = PAM_PROMPT_ECHO_OFF ∨ m.msg_style = PAM_PROMPT_ECHO_ON then
    let u := isUnlocked env (promptStep env m.msg initialPrompt w)
    if u.1 then ⟨true, none, initialPrompt, u.2⟩
    else ⟨false, some u.2.cs.input, false, u.2⟩
  else if m.msg_style = PAM_ERROR_MSG then
    ⟨false, none, initialPrompt, w.emit (.log .ERR "PAM: \x7b\x7d" [m.msg])⟩
  else if m.msg_style = PAM_TEXT_INFO then
    ⟨false, none, initialPrompt, infoStep m.msg w⟩
  else ⟨false, none, initialPrompt, w⟩

/-- The result of one invocation of `conv`. -/
structure ConvResult where
  /-- The returned code. -/
  ret : Int
  /-- The array stored into `*resp` (`none` when `*resp` is not assigned). -/
  resp : Option (List (Option String))
  world : World

/-- The `for` loop of `conv` from message `i` on, `replies` being `pamReply[0..i)`. -/
def convLoop (env : Env) : List pam_message → Bool → List (Option String) → World → ConvResult
  | [], _, replies, w => ⟨PAM_SUCCESS, some replies, w⟩
  | m :: rest, initialPrompt, replies, w =>
    let r := convMessage env m initialPrompt w
    if r.aborted then ⟨PAM_CONV_ERR, none, r.world⟩
    else convLoop env rest r.initialPrompt (replies ++ [r.resp]) r.world

/-- The callback `conv(num_msg, msg, resp, appdata_ptr)`, with `num_msg = msgs.length` and
`appdata_ptr` pointing to `m_sConversationState`. -/
def conv (env : Env) (msgs : List pam_message) (w : World) : ConvResult :=
  convLoop env msgs true [] w

/-! ## libpam -/

/-- The behaviour of `pam_authenticate` for one attempt: it either returns a code, or invokes
the conversation callback with some messages and goes on according to what comes back. -/
inductive PamScript where
  | finish (ret : Int)
  | converse (msgs : List pam_message) (next : Int → Option (List (Option String)) → PamScript)

/-- The PAM stack the worker talks to. -/
structure Backend where
  /-- The code returned by `pam_start`. -/
  startRet : Int
  /-- The behaviour of `pam_authenticate`. -/
  authenticate : PamScript

/-- The call `pam_authenticate(handle, 0)` with `conv` as the conversation function. -/
def pam_authenticate (env : Env) : PamScript → World → Int × World
  | .finish ret, w => (ret, w)
  | .converse msgs next, w =>
    let r := conv env msgs w
    pam_authenticate env (next r.ret r.resp) r.world

/-! ## `CAuth::auth` and the worker of `CAuth::start` -/

/-- The failure tail of `CAuth::auth` (lines 140-145). -/
def authFailed (ret : Int) (w : World) : World :=
  let w := if !w.cs.failTextFromPam then
      w.setCs fun c =>
        { c with failText :=
            if ret = PAM_AUTH_ERR then "Authentication failed" else "pam_authenticate failed" }
    else w
  w.emit (.log .ERR "auth: \x7b\x7d for \x7b\x7d" [w.cs.failText, w.auth.m_sPamModule])

/-- Method `CAuth::auth` (lines 104-151); `FALLBACK_PASSWORD` is the configured value of
`general:fallback_password`. -/
def auth (env : Env) (be : Backend) (FALLBACK_PASSWORD : String) (w : World) : Bool × World :=
  let hash := password_hash w.cs.input
  let w := w.emit (.log .LOG "Unlocking with fallback password" [])
  if FALLBACK_PASSWORD != "" && hash == FALLBACK_PASSWORD then (true, w)
  else
    let w := w.emit (.pam_start w.auth.m_sPamModule)
    if be.startRet ≠ PAM_SUCCESS then
      let w := w.setCs fun c => { c with failText := "pam_start failed" }
      (false, w.emit (.log .ERR "auth: pam_start failed for \x7b\x7d" [w.auth.m_sPamModule]))
    else
      let r := pam_authenticate env be.authenticate (w.emit .pam_authenticate)
      let w := r.2.emit (.pam_end r.1)
      let w := w.setCs fun c => { c with waitingForPamAuth := false }
      if r.1 ≠ PAM_SUCCESS then (false, authFailed r.1 w)
      else
        let w := w.setCs fun c => { c with failText := "Successfully authenticated" }
        (true, w.emit (.log .LOG "auth: authenticated for \x7b\x7d" [w.auth.m_sPamModule]))

/-- The worker thread body of `CAuth::start` (lines 80-99). -/
def start (env : Env) (be : Backend) (FALLBACK_PASSWORD : String) (w : World) : World :=
  let w := resetConversation w
  let w := w.setCs fun c => { c with prompt := "Password: " }
  let w := waitForInput env w
  let u := isUnlocked env w
  if u.1 then u.2
  else
    let r := auth env be FALLBACK_PASSWORD u.2
    let w := { r.2 with auth := { r.2.auth with m_bAuthenticated := r.1 } }
    let u := isUnlocked env w
    if u.1 then u.2 else u.2.emit .addTimerPasswordCheck

/-! ## Elapsed time formatting (lines 193-222) -/

/-- Two's-complement wrap-around to the range of `int64_t`, the representation of
`std::chrono::system_clock::duration`, of `std::chrono::hours`, `minutes` and `seconds`, and
of `long`. -/
def wrap64 (x : Int) : Int :=
  (x + 9223372036854775808) % 18446744073709551616 - 9223372036854775808

/-- The value is representable in `int64_t`. -/
def isInt64 (x : Int) : Prop := -9223372036854775808 ≤ x ∧ x ≤ 9223372036854775807

/-- Function `break_down_durations<Durations...>(d)`: `periods` are the lengths of the requested
units in ticks of the input duration; each count is a `duration_cast` (truncation toward zero)
of what is left, and what it stands for (a `duration_cast` back, a multiplication) is
subtracted from `d`; all arithmetic is on `int64_t`. -/
def break_down_durations : List Int → Int → List Int
  | [], _ => []
  | p :: ps, d =>
    let c := wrap64 (Int.tdiv d p)
    c :: break_down_durations ps (wrap64 (d - wrap64 (c * p)))

/-- Function `formatDuration(long num)` (lines 204-209). -/
def formatDuration (num : Int) : String :=
  let s := toString num
  if num < 10 then "0" ++ s else s

/-- Ticks of `std::chrono::system_clock::duration` per second (nanoseconds in libstdc++). -/
def ticksPerSecond : Int := 1000000000

/-- Method `CAuth::getTimeSinceLockedString` (lines 215-222); `now` (the value of
`system_clock::now()`) and `startTime` are `int64_t` tick counts since the epoch, and so is
their difference. -/
def getTimeSinceLockedString (startTime now : Int) : Option String :=
  let duration := wrap64 (now - startTime)
  let clean_duration := break_down_durations
    [3600 * ticksPerSecond, 60 * ticksPerSecond, ticksPerSecond] duration
  some (formatDuration (clean_duration.getD 0 0) ++ ":"
        ++ formatDuration (clean_duration.getD 1 0) ++ ":"
        ++ formatDuration (clean_duration.getD 2 0))

/-! ## Specification-side definitions, trace observers and sample inputs -/

/-- Specification side of C3: the decimal numeral of `n`, left-padded with `'0'` to at least
two digits. -/
def pad2 (n : Nat) : String :=
  String.mk (List.replicate (2 - (Nat.repr n).length) '0') ++ Nat.repr n

/-- The event is a call of `pam_start` or `pam_authenticate`. -/
def isPamCall : Event → Bool
  | .pam_start _ => true
  | .pam_authenticate => true
  | _ => false

/-- Number of `pam_start` calls in a trace. -/
def pamStartCalls (t : List Event) : Nat :=
  t.countP fun e => match e with
    | .pam_start _ => true
    | _ => false

/-- Number of `pam_authenticate` calls in a trace. -/
def pamAuthenticateCalls (t : List Event) : Nat :=
  t.countP fun e => match e with
    | .pam_authenticate => true
    | _ => false

/-- Number of `waitForInput()` calls in a trace. -/
def waitForInputCalls (t : List Event) : Nat :=
  t.countP fun e => match e with
    | .waitForInput => true
    | _ => false

/-- The text of an informational message with the lockout pattern, as the `PAM_TEXT_INFO` case
logs it (line 51) when the callback handles the message. -/
def lockoutText : Event → Option String
  | .log .LOG fmt [m] =>
    if fmt = "PAM: \x7b\x7d" ∧ strContains m "left to unlock" = true then some m else none
  | _ => none

/-- The lockout texts handled by the callback, in order. -/
def lockoutTexts (t : List Event) : List String := t.filterMap lockoutText

/-- The pair (`failText`, `failTextFromPam`) after the callback handled the messages logged in
`extra`, starting from `init`. -/
def failState (init : String × Bool) (extra : List Event) : String × Bool :=
  (lockoutTexts extra).foldl (fun _ m => (m, true)) init

/-- The world `w` comes from `w0` by steps of the conversation: the trace grew by events that
are not libpam calls, `failText` and `failTextFromPam` follow the lockout texts handled, and
the service name is the same. -/
def ConvRel (w0 w : World) : Prop :=
  ∃ extra, w.trace = w0.trace ++ extra ∧ (∀ e ∈ extra, isPamCall e = false) ∧
    (w.cs.failText, w.cs.failTextFromPam)
      = failState (w0.cs.failText, w0.cs.failTextFromPam) extra ∧
    w.auth.m_sPamModule = w0.auth.m_sPamModule

/-- The world in which `CAuth::auth` calls `pam_authenticate`, when it gets there. -/
def atAuthenticate (w : World) : World :=
  ((w.emit (.log .LOG "Unlocking with fallback password" [])).emit
    (.pam_start w.auth.m_sPamModule)).emit .pam_authenticate

/-- Specification side of C1: equality of two hex strings up to the case of the digits. -/
def eqIgnoreCase (a b : String) : Bool := a.data.map Char.toLower == b.data.map Char.toLower

/-- The generic failure text of `CAuth::auth` for a return code (line 142). -/
def genericFailText (ret : Int) : String :=
  if ret = PAM_AUTH_ERR then "Authentication failed" else "pam_authenticate failed"

/-- A worker state as `start()` hands it to `auth()` after the UI submitted `"hunter2"`; the
trace is observed from here on. -/
def lockedWorld : World :=
  ⟨⟨⟨"hunter2", "Password: ", "", true, false, false⟩, true, false, "hyprlock"⟩, [], 0, 0⟩

/-- An environment in which the session is never unlocked from outside and every wait is ended
by the UI submitting `"123456"`. -/
def lockedEnv : Env := ⟨fun _ => false, fun _ => .submitted "123456"⟩

/-- An environment in which the session has been unlocked from outside (SIGUSR1). -/
def unlockedEnv : Env := ⟨fun _ => true, fun _ => .terminated⟩

/-- A PAM stack that asks for the password once and rejects it; when the conversation fails
it returns `PAM_CONV_ERR`. -/
def rejectingBackend : Backend :=
  ⟨PAM_SUCCESS, .converse [⟨PAM_PROMPT_ECHO_OFF, "Password: "⟩] fun ret _ =>
    .finish (if ret = PAM_SUCCESS then PAM_AUTH_ERR else PAM_CONV_ERR)⟩

/-- A PAM stack with `pam_faillock`: after the password prompt it reports the remaining lockout
time and fails. -/
def faillockBackend : Backend :=
  ⟨PAM_SUCCESS, .converse [⟨PAM_PROMPT_ECHO_OFF, "Password: "⟩] fun _ _ =>
    .converse [⟨PAM_TEXT_INFO, "(10 minutes left to unlock)"⟩] fun _ _ => .finish PAM_AUTH_ERR⟩

/-- The events appended to the trace by an `auth()` call started in `w`. -/
def attemptTrace (env : Env) (be : Backend) (F : String) (w : World) : List Event :=
  (auth env be F w).2.trace.drop w.trace.length

/-- A PAM stack that passes the same prompt twice in one invocation of the callback. -/
def twoPinPrompts : List pam_message :=
  [⟨PAM_PROMPT_ECHO_OFF, "PIN: "⟩, ⟨PAM_PROMPT_ECHO_OFF, "PIN: "⟩]

/-- A PAM stack whose first prompt is not the default label. -/
def pinBackend : Backend :=
  ⟨PAM_SUCCESS, .converse [⟨PAM_PROMPT_ECHO_OFF, "Enter PIN: "⟩] fun _ _ => .finish PAM_AUTH_ERR⟩

/-- A world before `start()`: nothing set yet. -/
def freshWorld : World :=
  ⟨⟨⟨"", "", "", false, false, false⟩, false, false, "hyprlock"⟩, [], 0, 0⟩

/-- An environment in which the first wait is ended by the UI submitting `"hunter2"`, later
waits by `"123456"`, and the session is never unlocked from outside. -/
def typingEnv : Env :=
  ⟨fun _ => false, fun k => if k = 0 then .submitted "hunter2" else .submitted "123456"⟩

/-- A PAM stack with a second factor: a password prompt, then, in a separate invocation of the
callback, a prompt for a verification code; it succeeds iff the code is `"123456"`. -/
def otpBackend : Backend :=
  ⟨PAM_SUCCESS, .converse [⟨PAM_PROMPT_ECHO_OFF, "Password: "⟩] fun _ _ =>
    .converse [⟨PAM_PROMPT_ECHO_OFF, "Verification code: "⟩] fun _ r =>
      .finish (if r = some [some "123456"] then PAM_SUCCESS else PAM_AUTH_ERR)⟩

/-- The text of a message given to the callback, if it is an informational message with the
lockout pattern. -/
def lockoutMessage (m : pam_message) : Option String :=
  if m.msg_style = PAM_TEXT_INFO ∧ strContains m.msg "left to unlock" = true then some m.msg
  else none

/-- The lockout texts among some messages, in order. -/
def lockoutMessages (ms : List pam_message) : List String := ms.filterMap lockoutMessage

/-- The messages of one invocation of `conv` that its loop reaches: all of them, or those up to
and including the prompt at which it returns `PAM_CONV_ERR`. -/
def convHandled (env : Env) : List pam_message → Bool → World → List pam_message
  | [], _, _ => []
  | m :: rest, initialPrompt, w =>
    if (convMessage env m initialPrompt w).aborted then [m]
    else m :: convHandled env rest (convMessage env m initialPrompt w).initialPrompt
      (convMessage env m initialPrompt w).world

/-- All the messages the backend gives to the callback during `pam_authenticate`. -/
def delivered (env : Env) : PamScript → World → List pam_message
  | .finish _, _ => []
  | .converse msgs next, w =>
    msgs ++ delivered env (next (conv env msgs w).ret (conv env msgs w).resp) (conv env msgs w).world

/-- The messages the loop of the callback reaches during `pam_authenticate`. -/
def handled (env : Env) : PamScript → World → List pam_message
  | .finish _, _ => []
  | .converse msgs next, w =>
    convHandled env msgs true w ++
      handled env (next (conv env msgs w).ret (conv env msgs w).resp) (conv env msgs w).world

/-- The pair (`failText`, `failTextFromPam`) of a world. -/
def failPair (w : World) : String × Bool := (w.cs.failText, w.cs.failTextFromPam)

/-- The pair (`failText`, `failTextFromPam`) after the lockout texts among `ms` were stored one
after the other, starting from `init`. -/
def storeLockout (init : String × Bool) (ms : List pam_message) : String × Bool :=
  (lockoutMessages ms).foldl (fun _ m => (m, true)) init

/-- A PAM stack that passes the password prompt and the lockout text of `pam_faillock` in one
invocation of the callback. -/
def faillockBatchBackend : Backend :=
  ⟨PAM_SUCCESS, .converse [⟨PAM_PROMPT_ECHO_OFF, "Password: "⟩,
      ⟨PAM_TEXT_INFO, "(10 minutes left to unlock)"⟩] fun ret _ =>
    .finish (if ret = PAM_SUCCESS then PAM_AUTH_ERR else PAM_CONV_ERR)⟩

/-- The two flags are not both set. -/
def flagsOk (w : World) : Prop :=
  ¬ (w.cs.inputRequested = true ∧ w.cs.waitingForPamAuth = true)

/-- The states reachable from `resetConversation()` by the operations of `CAuth`. -/
inductive Reachable : World → Prop
  | init (w : World) : Reachable (resetConversation w)
  | reset {w : World} : Reachable w → Reachable (resetConversation w)
  | waitEnter {w : World} : Reachable w → Reachable (waitForInputEnter w)
  | waitReturn {w : World} : Reachable w → Reachable (waitForInputReturn w)
  | wait (env : Env) {w : World} : Reachable w → Reachable (waitForInput env w)
  | submit (input : String) {w : World} : Reachable w → Reachable (submitInput input w)
  | term {w : World} : Reachable w → Reachable (terminate w)
  | callback (env : Env) (msgs : List pam_message) {w : World} :
      Reachable w → Reachable (conv env msgs w).world
  | attempt (env : Env) (be : Backend) (fb : String) {w : World} :
      Reachable w → Reachable (auth env be fb w).2
  | worker (env : Env) (be : Backend) (fb : String) {w : World} :
      Reachable w → Reachable (start env be fb w)

/-! ## Theorems -/

@[simp]
theorem cs_emit (w : World) (e : Event) : (w.emit e).cs = w.cs := rfl

@[simp]
theorem cs_setCs (w : World) (f : SPamConversationState → SPamConversationState) :
    (w.setCs f).cs = f w.cs := rfl

@[simp]
theorem cs_isUnlocked (env : Env) (w : World) : (isUnlocked env w).2.cs = w.cs := rfl

theorem cs_submitInput (s : String) (w : World) :
    (submitInput s w).cs = { w.cs with input := s, inputRequested := false, waitingForPamAuth := true } := by
  unfold submitInput
  split <;> rfl

theorem cs_terminate (w : World) : (terminate w).cs = w.cs := rfl

theorem cs_waitForInputEnter (w : World) :
    (waitForInputEnter w).cs = { w.cs with waitingForPamAuth := false, inputRequested := true } := rfl

theorem cs_waitForInputReturn (w : World) : (waitForInputReturn w).cs = w.cs := rfl

theorem cs_resetConversation (w : World) :
    (resetConversation w).cs = { w.cs with input := "", waitingForPamAuth := false, inputRequested := false, failTextFromPam := false } := rfl

theorem cs_waitForInput (env : Env) (w : World) :
    (waitForInput env w).cs =
      match env.wake w.waits with
      | .submitted s => { w.cs with input := s, inputRequested := false, waitingForPamAuth := true }
      | .terminated => { w.cs with waitingForPamAuth := false, inputRequested := true } := by
  have hw : (waitForInputEnter w).waits = w.waits := rfl
  unfold waitForInput
  simp only [hw]
  cases h : env.wake w.waits with
  | submitted s =>
    show (submitInput s (waitForInputEnter w)).cs = _
    rw [cs_submitInput, cs_waitForInputEnter]
  | terminated => rfl

theorem flagsOk_waitForInput (env : Env) (w : World) : flagsOk (waitForInput env w) := by
  unfold flagsOk
  rw [cs_waitForInput]
  cases env.wake w.waits <;> simp

theorem flagsOk_of_cs {w w' : World} (h : flagsOk w)
    (h1 : w'.cs.inputRequested = w.cs.inputRequested)
    (h2 : w'.cs.waitingForPamAuth = w.cs.waitingForPamAuth) : flagsOk w' := by
  unfold flagsOk at *
  rw [h1, h2]; exact h

theorem world_convMessage_prompt (env : Env) (m : pam_message) (ip : Bool) (w : World)
    (hp : m.msg_style = PAM_PROMPT_ECHO_OFF ∨ m.msg_style = PAM_PROMPT_ECHO_ON) :
    (convMessage env m ip w).world = (isUnlocked env (promptStep env m.msg ip w)).2 := by
  unfold convMessage
  rw [if_pos hp]
  simp only []
  split <;> rfl

theorem flagsOk_promptStep (env : Env) (p : String) (ip : Bool) (w : World)
    (h : flagsOk w) : flagsOk (promptStep env p ip w) := by
  unfold promptStep
  simp only []
  split
  · exact flagsOk_waitForInput env _
  · split <;> exact flagsOk_of_cs h rfl rfl

theorem flagsOk_infoStep (s : String) (w : World) (h : flagsOk w) : flagsOk (infoStep s w) := by
  unfold infoStep
  simp only []
  split <;> exact flagsOk_of_cs h rfl rfl

theorem flagsOk_convMessage (env : Env) (m : pam_message) (ip : Bool) (w : World)
    (h : flagsOk w) : flagsOk (convMessage env m ip w).world := by
  by_cases hp : m.msg_style = PAM_PROMPT_ECHO_OFF ∨ m.msg_style = PAM_PROMPT_ECHO_ON
  · rw [world_convMessage_prompt env m ip w hp]
    exact flagsOk_of_cs (flagsOk_promptStep env _ ip w h) rfl rfl
  · unfold convMessage
    rw [if_neg hp]
    split
    · exact flagsOk_of_cs h rfl rfl
    · split
      · exact flagsOk_infoStep _ _ h
      · exact h

theorem flagsOk_convLoop (env : Env) (msgs : List pam_message) :
    ∀ (ip : Bool) (rs : List (Option String)) (w : World), flagsOk w →
      flagsOk (convLoop env msgs ip rs w).world := by
  induction msgs with
  | nil => intro ip rs w h; exact h
  | cons m rest ih =>
    intro ip rs w h
    unfold convLoop
    simp only []
    split
    · exact flagsOk_convMessage env m ip w h
    · exact ih _ _ _ (flagsOk_convMessage env m ip w h)

theorem flagsOk_pam_authenticate (env : Env) (s : PamScript) :
    ∀ w : World, flagsOk w → flagsOk (pam_authenticate env s w).2 := by
  induction s with
  | finish ret => intro w h; exact h
  | converse msgs next ih =>
    intro w h
    unfold pam_authenticate
    exact ih _ _ _ (flagsOk_convLoop env msgs true [] w h)

theorem flagsOk_auth (env : Env) (be : Backend) (fb : String) (w : World) (h : flagsOk w) :
    flagsOk (auth env be fb w).2 := by
  unfold auth
  simp only []
  split
  · exact flagsOk_of_cs h rfl rfl
  · split
    · exact flagsOk_of_cs h rfl rfl
    · split
      · unfold authFailed
        simp only []
        split <;> simp [flagsOk]
      · simp [flagsOk]

theorem flagsOk_start (env : Env) (be : Backend) (fb : String) (w : World) :
    flagsOk (start env be fb w) := by
  unfold start
  simp only []
  split
  · exact flagsOk_of_cs (flagsOk_waitForInput env _) rfl rfl
  · have h : flagsOk (isUnlocked env (waitForInput env
        ((resetConversation w).setCs fun c => { c with prompt := "Password: " }))).2 :=
      flagsOk_of_cs (flagsOk_waitForInput env _) rfl rfl
    have h2 := flagsOk_auth env be fb _ h
    split <;> exact flagsOk_of_cs h2 rfl rfl

/-- C8: in every state reachable from `resetConversation()` by `resetConversation`,
`waitForInput` (at entry to the wait and after it returns), `submitInput`, `terminate`, the
conversation callback and `auth()` (and the worker of `start()`), the flags `inputRequested`
and `waitingForPamAuth` are never both true. -/
theorem flags_never_both_true (w : World) (h : Reachable w) :
    ¬ (w.cs.inputRequested = true ∧ w.cs.waitingForPamAuth = true) := by
  induction h with
  | init w => simp [cs_resetConversation]
  | reset _ _ => simp [cs_resetConversation]
  | waitEnter _ _ => simp [cs_waitForInputEnter]
  | waitReturn _ ih => exact ih
  | wait env _ _ => exact flagsOk_waitForInput env _
  | submit s _ _ => simp [cs_submitInput]
  | term _ ih => exact ih
  | callback env msgs _ ih => exact flagsOk_convLoop env msgs true [] _ ih
  | attempt env be fb _ ih => exact flagsOk_auth env be fb _ ih
  | worker env be fb _ _ => exact flagsOk_start env be fb _

theorem toDigitsCore_length_ge (fuel : Nat) :
    ∀ (n : Nat) (acc : List Char), acc.length ≤ (Nat.toDigitsCore 10 fuel n acc).length := by
  induction fuel with
  | zero => intro n acc; simp [Nat.toDigitsCore]
  | succ f ih =>
    intro n acc
    unfold Nat.toDigitsCore
    simp only []
    split
    · simp
    · exact Nat.le_trans (by simp) (ih _ _)

theorem repr_length_small (n : Nat) (h : n < 10) : (Nat.repr n).length = 1 := by
  interval_cases n <;> rfl

theorem repr_length_large (n : Nat) (h : 10 ≤ n) : 2 ≤ (Nat.repr n).length := by
  have h0 : n / 10 ≠ 0 := by omega
  obtain ⟨k, rfl⟩ : ∃ k, n = k + 1 := ⟨n - 1, by omega⟩
  obtain ⟨j, rfl⟩ : ∃ j, k = j + 1 := ⟨k - 1, by omega⟩
  show 2 ≤ (Nat.toDigits 10 (j + 1 + 1)).length
  have e1 : Nat.toDigits 10 (j + 1 + 1) =
      Nat.toDigitsCore 10 (j + 1 + 1) ((j + 1 + 1) / 10) [Nat.digitChar ((j + 1 + 1) % 10)] := by
    show Nat.toDigitsCore 10 (j + 1 + 1 + 1) (j + 1 + 1) [] = _
    rw [Nat.toDigitsCore]
    simp only [h0, if_false]
  rw [e1, Nat.toDigitsCore]
  split
  · simp
  · exact Nat.le_trans (by simp) (toDigitsCore_length_ge _ _ _)

theorem formatDuration_eq_pad2 (k : Nat) : formatDuration (k : Int) = pad2 k := by
  unfold formatDuration pad2
  have hs : toString (k : Int) = Nat.repr k := rfl
  simp only [hs]
  by_cases h : k < 10
  · have h1 : ((k : Int) < 10) := by exact_mod_cast h
    rw [if_pos h1, repr_length_small k h]
    rfl
  · have h1 : ¬ ((k : Int) < 10) := by
      intro hh; exact h (by exact_mod_cast hh)
    have h2 := repr_length_large k (by omega)
    rw [if_neg h1, Nat.sub_eq_zero_of_le h2]
    apply String.ext
    simp

theorem pad2_length_two (m : Nat) (h : m < 60) : (pad2 m).length = 2 := by
  interval_cases m <;> rfl

theorem tdiv_units (T q n r : Nat) (hT : 0 < T) (hr : r < T) :
    Int.tdiv ((n : Int) * T + r) ((q : Int) * T) = ((n / q : Nat) : Int) ∧
    ((n : Int) * T + r) - ((n / q : Nat) : Int) * ((q : Int) * T)
      = ((n % q : Nat) : Int) * T + r := by
  constructor
  · have e1 : ((n : Int) * T + r) = ((n * T + r : Nat) : Int) := by push_cast; ring
    have e2 : ((q : Int) * T) = ((q * T : Nat) : Int) := by push_cast; ring
    rw [e1, e2, Int.tdiv_eq_ediv (by positivity) (by positivity)]
    norm_cast
    rw [Nat.mul_comm q, ← Nat.div_div_eq_div_mul]
    congr 1
    rw [Nat.add_comm, Nat.add_mul_div_right _ _ hT, Nat.div_eq_of_lt hr]
    simp
  · have h3 : (n : Int) = q * ((n / q : Nat) : Int) + ((n % q : Nat) : Int) := by
      exact_mod_cast (Nat.div_add_mod n q).symm
    linear_combination (T : Int) * h3


theorem wrap64_id (x : Int) (h0 : 0 ≤ x) (h1 : x < 9223372036854775808) : wrap64 x = x := by
  unfold wrap64
  omega

theorem wrapped_units (T q n r : Nat) (hT : 0 < T) (hr : r < T)
    (hb : (n : Int) * T + r < 9223372036854775808) :
    wrap64 (Int.tdiv ((n : Int) * T + r) ((q : Int) * T)) = ((n / q : Nat) : Int) ∧
    wrap64 (((n : Int) * T + r) - wrap64 (((n / q : Nat) : Int) * ((q : Int) * T)))
      = ((n % q : Nat) : Int) * T + r ∧
    ((n % q : Nat) : Int) * T + r < 9223372036854775808 := by
  obtain ⟨a1, a2⟩ := tdiv_units T q n r hT hr
  have hn : (0 : Int) ≤ (n : Int) * T := by positivity
  have hrem : (0 : Int) ≤ ((n % q : Nat) : Int) * T := by positivity
  have hprod : (0 : Int) ≤ ((n / q : Nat) : Int) * ((q : Int) * T) := by positivity
  have hr0 : (0 : Int) ≤ (r : Int) := by positivity
  have hle : ((n / q : Nat) : Int) ≤ (n : Int) * T := by
    have h1 : n / q ≤ n * T := Nat.le_trans (Nat.div_le_self n q) (Nat.le_mul_of_pos_right n hT)
    exact_mod_cast h1
  have hc0 : (0 : Int) ≤ ((n / q : Nat) : Int) := by positivity
  refine ⟨?_, ?_, by omega⟩
  · rw [a1]; exact wrap64_id _ hc0 (by omega)
  · rw [wrap64_id _ hprod (by omega), a2]
    exact wrap64_id _ (by omega) (by omega)

theorem getTimeSinceLockedString_eq (startTime : Int) (n r : Nat)
    (hr : (r : Int) < ticksPerSecond)
    (hb : (n : Int) * ticksPerSecond + r ≤ 9223372036854775807) :
    getTimeSinceLockedString startTime (startTime + n * ticksPerSecond + r) =
      some (pad2 (n / 3600) ++ ":" ++ pad2 (n % 3600 / 60) ++ ":" ++ pad2 (n % 60)) := by
  have hT : ticksPerSecond = ((1000000000 : Nat) : Int) := rfl
  rw [hT] at hb
  have hr' : r < 1000000000 := by rw [hT] at hr; exact_mod_cast hr
  have hb' : (n : Int) * ((1000000000 : Nat) : Int) + r < 9223372036854775808 := by omega
  have hd0 : (0 : Int) ≤ (n : Int) * ((1000000000 : Nat) : Int) + r := by positivity
  have hd : wrap64 (startTime + (n : Int) * ((1000000000 : Nat) : Int) + r - startTime)
      = (n : Int) * ((1000000000 : Nat) : Int) + r := by
    have : startTime + (n : Int) * ((1000000000 : Nat) : Int) + r - startTime
        = (n : Int) * ((1000000000 : Nat) : Int) + r := by ring
    rw [this]; exact wrap64_id _ hd0 hb'
  obtain ⟨a1, a2, a3⟩ := wrapped_units 1000000000 3600 n r (by norm_num) hr' hb'
  obtain ⟨b1, b2, b3⟩ := wrapped_units 1000000000 60 (n % 3600) r (by norm_num) hr' a3
  obtain ⟨c1, _, _⟩ := wrapped_units 1000000000 1 (n % 3600 % 60) r (by norm_num) hr' b3
  have hmod : n % 3600 % 60 = n % 60 := Nat.mod_mod_of_dvd n (by norm_num)
  unfold getTimeSinceLockedString
  simp only [Nat.cast_ofNat, Nat.cast_one, one_mul, Nat.div_one] at a1 a2 b1 b2 c1 hd
  simp only [break_down_durations, hT, Nat.cast_ofNat, hd]
  rw [a1, a2, b1, b2, c1, hmod]
  simp only [List.getD_cons_zero, List.getD_cons_succ, formatDuration_eq_pad2]

theorem failState_append (init : String × Bool) (a b : List Event) :
    failState init (a ++ b) = failState (failState init a) b := by
  simp [failState, lockoutTexts, List.filterMap_append, List.foldl_append]

theorem convRel_refl (w : World) : ConvRel w w :=
  ⟨[], by simp, by simp, rfl, rfl⟩

theorem convRel_trans {w0 w1 w2 : World} (h1 : ConvRel w0 w1) (h2 : ConvRel w1 w2) :
    ConvRel w0 w2 := by
  obtain ⟨e1, t1, q1, f1, m1⟩ := h1
  obtain ⟨e2, t2, q2, f2, m2⟩ := h2
  refine ⟨e1 ++ e2, by rw [t2, t1, List.append_assoc], ?_, ?_, m2.trans m1⟩
  · intro e he
    rcases List.mem_append.1 he with h | h
    · exact q1 e h
    · exact q2 e h
  · rw [failState_append, ← f1, f2]

theorem convRel_emit (w : World) (e : Event) (hq : isPamCall e = false)
    (hl : lockoutText e = none) : ConvRel w (w.emit e) :=
  ⟨[e], rfl, by simpa using hq, by simp [failState, lockoutTexts, hl], rfl⟩

theorem convRel_setCs (w : World) (f : SPamConversationState → SPamConversationState)
    (h1 : (f w.cs).failText = w.cs.failText)
    (h2 : (f w.cs).failTextFromPam = w.cs.failTextFromPam) : ConvRel w (w.setCs f) :=
  ⟨[], by simp [World.setCs], by simp, by simp [failState, lockoutTexts, h1, h2], rfl⟩

theorem convRel_of_eq {w w' : World} (ht : w'.trace = w.trace) (hc : w'.cs = w.cs)
    (hm : w'.auth.m_sPamModule = w.auth.m_sPamModule) : ConvRel w w' :=
  ⟨[], by simp [ht], by simp, by simp [failState, lockoutTexts, hc], hm⟩

theorem convRel_submitInput (s : String) (w : World) : ConvRel w (submitInput s w) := by
  have hmid : ConvRel w (if (!w.cs.inputRequested) = true then
      w.emit (.log .ERR "SubmitInput called, but the auth thread is not waiting for input!" [])
    else w) := by
    split
    · exact convRel_emit _ _ rfl rfl
    · exact convRel_refl _
  unfold submitInput
  simp only []
  exact convRel_trans hmid (convRel_trans (convRel_setCs _ _ rfl rfl) (convRel_emit _ _ rfl rfl))

theorem convRel_waitForInput (env : Env) (w : World) : ConvRel w (waitForInput env w) := by
  have h0 : ConvRel w (waitForInputEnter w) := by
    unfold waitForInputEnter
    refine convRel_trans (convRel_emit w .waitForInput rfl rfl)
      (convRel_trans (convRel_emit _ .addTimerClearInput rfl rfl) ?_)
    exact convRel_trans (convRel_of_eq rfl rfl rfl) (convRel_setCs _ _ rfl rfl)
  have h1 : ConvRel (waitForInputEnter w) (uiWake (env.wake (waitForInputEnter w).waits)
      (waitForInputEnter w)) := by
    cases env.wake (waitForInputEnter w).waits with
    | submitted s => exact convRel_submitInput s _
    | terminated => exact convRel_emit _ _ rfl rfl
  exact convRel_trans h0 (convRel_trans h1 (convRel_of_eq rfl rfl rfl))

theorem convRel_promptStep (env : Env) (p : String) (ip : Bool) (w : World) :
    ConvRel w (promptStep env p ip w) := by
  unfold promptStep
  simp only []
  have h1 : ConvRel w (w.emit (.log .LOG "PAM_PROMPT: \x7b\x7d" [p])) :=
    convRel_emit _ _ rfl (by simp [lockoutText])
  have h2 : ConvRel w (if (p != w.cs.prompt) = true then
      (w.emit (.log .LOG "PAM_PROMPT: \x7b\x7d" [p])).emit .enqueueForceUpdateTimers
      else w.emit (.log .LOG "PAM_PROMPT: \x7b\x7d" [p])) := by
    split
    · exact convRel_trans h1 (convRel_emit _ _ rfl rfl)
    · exact h1
  split
  · exact convRel_trans h2 (convRel_trans (convRel_setCs _ _ rfl rfl) (convRel_waitForInput _ _))
  · exact h2


theorem convRel_infoStep (s : String) (w : World) :
    ∃ extra, (infoStep s w).trace = w.trace ++ extra ∧ (∀ e ∈ extra, isPamCall e = false) ∧
      ((infoStep s w).cs.failText, (infoStep s w).cs.failTextFromPam)
        = failState (w.cs.failText, w.cs.failTextFromPam) extra ∧
      (infoStep s w).auth.m_sPamModule = w.auth.m_sPamModule := by
  unfold infoStep
  simp only []
  refine ⟨[.log .LOG "PAM: \x7b\x7d" [s]], ?_, by simp [isPamCall], ?_, ?_⟩
  · split <;> rfl
  · by_cases h : strContains s "left to unlock" = true
    · simp [failState, lockoutTexts, lockoutText, h]
    · simp [failState, lockoutTexts, lockoutText, h]
  · split <;> rfl

theorem convRel_convMessage (env : Env) (m : pam_message) (ip : Bool) (w : World) :
    ConvRel w (convMessage env m ip w).world := by
  by_cases hp : m.msg_style = PAM_PROMPT_ECHO_OFF ∨ m.msg_style = PAM_PROMPT_ECHO_ON
  · rw [world_convMessage_prompt env m ip w hp]
    exact convRel_trans (convRel_promptStep env _ ip w) (convRel_of_eq rfl rfl rfl)
  · unfold convMessage
    rw [if_neg hp]
    split
    · exact convRel_emit _ _ rfl rfl
    · split
      · exact convRel_infoStep _ _
      · exact convRel_refl _

theorem convRel_convLoop (env : Env) (msgs : List pam_message) :
    ∀ (ip : Bool) (rs : List (Option String)) (w : World),
      ConvRel w (convLoop env msgs ip rs w).world := by
  induction msgs with
  | nil => intro ip rs w; exact convRel_refl _
  | cons m rest ih =>
    intro ip rs w
    unfold convLoop
    simp only []
    split
    · exact convRel_convMessage env m ip w
    · exact convRel_trans (convRel_convMessage env m ip w) (ih _ _ _)

theorem convRel_pam_authenticate (env : Env) (s : PamScript) :
    ∀ w : World, ConvRel w (pam_authenticate env s w).2 := by
  induction s with
  | finish ret => intro w; exact convRel_refl _
  | converse msgs next ih =>
    intro w
    unfold pam_authenticate
    exact convRel_trans (convRel_convLoop env msgs true [] w) (ih _ _ _)

theorem password_hash_length (s : String) : (password_hash s).length = 64 := by
  simp [password_hash, SHA256, beBytes, hexByte, SHA256_DIGEST_LENGTH, String.length]

theorem password_hash_ne_empty (s : String) : password_hash s ≠ "" := by
  intro h
  have := password_hash_length s
  rw [h] at this
  simp at this

theorem auth_fallback (env : Env) (be : Backend) (F : String) (w : World)
    (h : F = password_hash w.cs.input) :
    auth env be F w = (true, w.emit (.log .LOG "Unlocking with fallback password" [])) := by
  subst h
  have hc : (password_hash w.cs.input != "" &&
      password_hash w.cs.input == password_hash w.cs.input) = true := by
    simp [password_hash_ne_empty]
  unfold auth
  simp only [World.cs] at hc
  simp only [hc, World.cs]
  rfl

theorem auth_backend (env : Env) (be : Backend) (F : String) (w : World)
    (h : F = "" ∨ F ≠ password_hash w.cs.input) :
    auth env be F w =
      if be.startRet ≠ PAM_SUCCESS then
        (false, (((w.emit (.log .LOG "Unlocking with fallback password" [])).emit
            (.pam_start w.auth.m_sPamModule)).setCs
              fun c => { c with failText := "pam_start failed" }).emit
            (.log .ERR "auth: pam_start failed for \x7b\x7d" [w.auth.m_sPamModule]))
      else
        let r := pam_authenticate env be.authenticate (atAuthenticate w)
        let w1 := (r.2.emit (.pam_end r.1)).setCs fun c => { c with waitingForPamAuth := false }
        if r.1 ≠ PAM_SUCCESS then (false, authFailed r.1 w1)
        else
          (true, (w1.setCs fun c => { c with failText := "Successfully authenticated" }).emit
            (.log .LOG "auth: authenticated for \x7b\x7d" [w1.auth.m_sPamModule])) := by
  have hc : (F != "" && password_hash w.cs.input == F) = false := by
    rcases h with h | h
    · simp [h]
    · have : ¬ (password_hash w.cs.input = F) := fun e => h e.symm
      simp [this]
  unfold auth
  simp only [World.cs] at hc
  simp only [hc, World.cs]
  rfl

theorem failState_getLast (init : String × Bool) (extra : List Event) :
    failState init extra =
      match (lockoutTexts extra).getLast? with
      | none => init
      | some m => (m, true) := by
  unfold failState
  rcases List.eq_nil_or_concat (lockoutTexts extra) with h | ⟨L, b, h⟩
  · rw [h]; rfl
  · rw [h]; simp [List.foldl_append]

theorem strContains_ne_empty (m pat : String) (hp : pat ≠ "") (h : strContains m pat = true) :
    m ≠ "" := by
  intro hm
  subst hm
  have hp2 : pat.data ≠ [] := fun e => hp (String.ext e)
  cases hd : pat.data with
  | nil => exact hp2 hd
  | cons c cs => simp [strContains, containsChars, hd] at h

theorem trace_authFailed (ret : Int) (w : World) :
    ∃ e, (authFailed ret w).trace = w.trace ++ [e] ∧ isPamCall e = false ∧
      lockoutText e = none := by
  unfold authFailed
  simp only []
  split
  · exact ⟨_, rfl, rfl, rfl⟩
  · exact ⟨_, rfl, rfl, rfl⟩

theorem cs_authFailed (ret : Int) (w : World) :
    (authFailed ret w).cs =
      if w.cs.failTextFromPam = true then w.cs
      else { w.cs with failText := genericFailText ret } := by
  unfold authFailed
  simp only []
  cases h : w.cs.failTextFromPam <;> simp [h, genericFailText]

/-- The trace and conversation state of a failed attempt, in terms of the events `extra` of the
conversation. -/
theorem auth_failed_shape (env : Env) (be : Backend) (F : String) (w : World)
    (h : F = "" ∨ F ≠ password_hash w.cs.input) (hs : be.startRet = PAM_SUCCESS)
    (hret : (pam_authenticate env be.authenticate (atAuthenticate w)).1 ≠ PAM_SUCCESS) :
    (auth env be F w).1 = false ∧
    ∃ extra e,
      (auth env be F w).2.trace = w.trace ++
        ([.log .LOG "Unlocking with fallback password" [], .pam_start w.auth.m_sPamModule,
          .pam_authenticate] ++ extra ++
          [.pam_end (pam_authenticate env be.authenticate (atAuthenticate w)).1, e]) ∧
      (∀ x ∈ extra, isPamCall x = false) ∧ isPamCall e = false ∧ lockoutText e = none ∧
      (pam_authenticate env be.authenticate (atAuthenticate w)).2.trace
        = (atAuthenticate w).trace ++ extra ∧
      ((pam_authenticate env be.authenticate (atAuthenticate w)).2.cs.failText,
        (pam_authenticate env be.authenticate (atAuthenticate w)).2.cs.failTextFromPam)
        = failState (w.cs.failText, w.cs.failTextFromPam) extra ∧
      (auth env be F w).2.cs.failText =
        if (pam_authenticate env be.authenticate (atAuthenticate w)).2.cs.failTextFromPam = true
        then (pam_authenticate env be.authenticate (atAuthenticate w)).2.cs.failText
        else genericFailText (pam_authenticate env be.authenticate (atAuthenticate w)).1 := by
  rw [auth_backend env be F w h]
  simp only [hs, ne_eq, not_true_eq_false, if_false, hret, not_false_eq_true, if_true]
  obtain ⟨extra, ht, hq, hf, _⟩ := convRel_pam_authenticate env be.authenticate (atAuthenticate w)
  obtain ⟨e, he, hqe, hl⟩ := trace_authFailed (pam_authenticate env be.authenticate (atAuthenticate w)).1
    (((pam_authenticate env be.authenticate (atAuthenticate w)).2.emit
      (.pam_end (pam_authenticate env be.authenticate (atAuthenticate w)).1)).setCs
        fun c => { c with waitingForPamAuth := false })
  refine ⟨trivial, extra, e, ?_, hq, hqe, hl, ht, hf, ?_⟩
  · rw [he]
    show (pam_authenticate env be.authenticate (atAuthenticate w)).2.trace ++ [_] ++ [e] = _
    rw [ht]
    simp [atAuthenticate, World.emit]
  · rw [cs_authFailed]
    simp only [cs_setCs, cs_emit]
    split <;> rfl

theorem count_quiet (extra : List Event) (hq : ∀ e ∈ extra, isPamCall e = false) :
    pamStartCalls extra = 0 ∧ pamAuthenticateCalls extra = 0 := by
  unfold pamStartCalls pamAuthenticateCalls
  constructor <;>
  · rw [List.countP_eq_zero]
    intro e he
    have := hq e he
    cases e <;> simp_all [isPamCall]

/-- C1 (as amended): if the configured fallback digest `F` is exactly (byte for byte) the
lower-case hex SHA-256 digest of the held secret, `auth()` returns true having only written its
log line: no `pam_start` and no `pam_authenticate` call is made. -/
theorem auth_fallback_exact_match (env : Env) (be : Backend) (F : String) (w : World)
    (h : F = password_hash w.cs.input) :
    (auth env be F w).1 = true ∧
    (auth env be F w).2.trace = w.trace ++ [.log .LOG "Unlocking with fallback password" []] ∧
    pamStartCalls (auth env be F w).2.trace = pamStartCalls w.trace ∧
    pamAuthenticateCalls (auth env be F w).2.trace = pamAuthenticateCalls w.trace := by
  rw [auth_fallback env be F w h]
  refine ⟨rfl, rfl, ?_, ?_⟩
  · simp [pamStartCalls, World.emit]
  · simp [pamAuthenticateCalls, World.emit]

/-- Witness of C1 (as amended): the secret `"hunter2"` with its lower-case digest configured. -/
theorem auth_fallback_exact_match_witness :
    "f52fbd32b2b3b86ff88ef6c490628285f482af15ddcb29541f94bcf526a3f6c7"
        = password_hash lockedWorld.cs.input ∧
    ((auth lockedEnv rejectingBackend
        "f52fbd32b2b3b86ff88ef6c490628285f482af15ddcb29541f94bcf526a3f6c7" lockedWorld).1 = true ∧
      (auth lockedEnv rejectingBackend
        "f52fbd32b2b3b86ff88ef6c490628285f482af15ddcb29541f94bcf526a3f6c7" lockedWorld).2.trace
        = lockedWorld.trace ++ [.log .LOG "Unlocking with fallback password" []] ∧
      pamStartCalls (auth lockedEnv rejectingBackend
        "f52fbd32b2b3b86ff88ef6c490628285f482af15ddcb29541f94bcf526a3f6c7" lockedWorld).2.trace
        = pamStartCalls lockedWorld.trace ∧
      pamAuthenticateCalls (auth lockedEnv rejectingBackend
        "f52fbd32b2b3b86ff88ef6c490628285f482af15ddcb29541f94bcf526a3f6c7" lockedWorld).2.trace
        = pamAuthenticateCalls lockedWorld.trace) :=
  ⟨by decide, auth_fallback_exact_match lockedEnv rejectingBackend _ lockedWorld (by decide)⟩

/-- Counterexample to C1 as stated: the digest of `"hunter2"` written with upper-case hex digits
equals the computed digest up to case, yet `auth()` does not take the fallback path: it calls
`pam_start` and `pam_authenticate` and, the backend rejecting, returns false. -/
theorem auth_fallback_upper_case_counterexample :
    eqIgnoreCase "F52FBD32B2B3B86FF88EF6C490628285F482AF15DDCB29541F94BCF526A3F6C7"
        (password_hash lockedWorld.cs.input) = true ∧
    (auth lockedEnv rejectingBackend
        "F52FBD32B2B3B86FF88EF6C490628285F482AF15DDCB29541F94BCF526A3F6C7" lockedWorld).1 = false ∧
    pamStartCalls (auth lockedEnv rejectingBackend
        "F52FBD32B2B3B86FF88EF6C490628285F482AF15DDCB29541F94BCF526A3F6C7" lockedWorld).2.trace = 1 ∧
    pamAuthenticateCalls (auth lockedEnv rejectingBackend
        "F52FBD32B2B3B86FF88EF6C490628285F482AF15DDCB29541F94BCF526A3F6C7" lockedWorld).2.trace = 1 := by
  decide

/-- C2: when the configured fallback digest is empty or differs from the digest of the held
secret, `auth()` calls `pam_start` exactly once and `pam_authenticate` at most once, and it
returns true iff `pam_start` and `pam_authenticate` both returned `PAM_SUCCESS`; with an empty
configured digest the fallback path is never taken. -/
theorem auth_delegates_once (env : Env) (be : Backend) (F : String) (w : World)
    (h : F = "" ∨ F ≠ password_hash w.cs.input) :
    pamStartCalls (auth env be F w).2.trace = pamStartCalls w.trace + 1 ∧
    pamAuthenticateCalls (auth env be F w).2.trace ≤ pamAuthenticateCalls w.trace + 1 ∧
    ((auth env be F w).1 = true ↔
      be.startRet = PAM_SUCCESS ∧
      (pam_authenticate env be.authenticate (atAuthenticate w)).1 = PAM_SUCCESS) := by
  by_cases hs : be.startRet = PAM_SUCCESS
  · by_cases hret : (pam_authenticate env be.authenticate (atAuthenticate w)).1 = PAM_SUCCESS
    · rw [auth_backend env be F w h]
      simp only [hs, ne_eq, not_true_eq_false, if_false, hret]
      obtain ⟨extra, ht, hq, _, _⟩ :=
        convRel_pam_authenticate env be.authenticate (atAuthenticate w)
      obtain ⟨c1, c2⟩ := count_quiet extra hq
      have htr : ∀ e1 e2 : Event, World.trace
          (((((pam_authenticate env be.authenticate (atAuthenticate w)).2.emit
          e1).setCs fun c => { c with waitingForPamAuth := false }).setCs
          fun c => { c with failText := "Successfully authenticated" }).emit e2)
          = w.trace ++ ([.log .LOG "Unlocking with fallback password" [],
            .pam_start w.auth.m_sPamModule, .pam_authenticate] ++ extra ++ [e1, e2]) := by
        intro e1 e2
        show (pam_authenticate env be.authenticate (atAuthenticate w)).2.trace ++ [e1] ++ [e2] = _
        rw [ht]
        simp [atAuthenticate, World.emit]
      refine ⟨?_, ?_, by simp⟩
      · rw [htr]
        unfold pamStartCalls at c1 ⊢
        simp [List.countP_append, c1, List.countP_cons]
      · rw [htr]
        unfold pamAuthenticateCalls at c2 ⊢
        simp [List.countP_append, c2, List.countP_cons]
    · obtain ⟨h1, extra, e, ht, hq, hqe, _, _, _, _⟩ := auth_failed_shape env be F w h hs hret
      obtain ⟨c1, c2⟩ := count_quiet extra hq
      obtain ⟨d1, d2⟩ := count_quiet [e] (by simpa using hqe)
      refine ⟨?_, ?_, by simp [h1, hret]⟩
      · rw [ht]
        unfold pamStartCalls at c1 d1 ⊢
        simp only [List.countP_append, c1, d1, List.countP_cons, List.countP_nil,
          List.countP_singleton] at d1 ⊢
        simp [d1]
      · rw [ht]
        unfold pamAuthenticateCalls at c2 d2 ⊢
        simp only [List.countP_append, c2, d2, List.countP_cons, List.countP_nil,
          List.countP_singleton] at d2 ⊢
        simp [d2]
  · rw [auth_backend env be F w h]
    simp only [ne_eq, hs, not_false_eq_true, if_true]
    refine ⟨?_, ?_, by simp⟩
    · simp [pamStartCalls, World.emit, World.setCs, List.countP_append, List.countP_cons]
    · simp [pamAuthenticateCalls, World.emit, World.setCs, List.countP_append, List.countP_cons]

/-- C2 witness: an empty configured digest, the backend rejecting the password. -/
theorem auth_delegates_once_witness :
    (("" : String) = "" ∨ "" ≠ password_hash lockedWorld.cs.input) ∧
    (pamStartCalls (auth lockedEnv rejectingBackend "" lockedWorld).2.trace
        = pamStartCalls lockedWorld.trace + 1 ∧
      pamAuthenticateCalls (auth lockedEnv rejectingBackend "" lockedWorld).2.trace
        ≤ pamAuthenticateCalls lockedWorld.trace + 1 ∧
      ((auth lockedEnv rejectingBackend "" lockedWorld).1 = true ↔
        rejectingBackend.startRet = PAM_SUCCESS ∧
        (pam_authenticate lockedEnv rejectingBackend.authenticate
          (atAuthenticate lockedWorld)).1 = PAM_SUCCESS)) :=
  ⟨Or.inl rfl, auth_delegates_once lockedEnv rejectingBackend "" lockedWorld (Or.inl rfl)⟩

theorem storeLockout_append (init : String × Bool) (a b : List pam_message) :
    storeLockout init (a ++ b) = storeLockout (storeLockout init a) b := by
  simp [storeLockout, lockoutMessages, List.filterMap_append, List.foldl_append]

theorem storeLockout_getLast (init : String × Bool) (ms : List pam_message) :
    storeLockout init ms =
      match (lockoutMessages ms).getLast? with
      | none => init
      | some m => (m, true) := by
  unfold storeLockout
  rcases List.eq_nil_or_concat (lockoutMessages ms) with h | ⟨L, b, h⟩
  · rw [h]; rfl
  · rw [h]; simp [List.foldl_append]

theorem lockoutMessages_contains (ms : List pam_message) (m : String)
    (h : m ∈ lockoutMessages ms) : strContains m "left to unlock" = true := by
  unfold lockoutMessages at h
  obtain ⟨x, _, hx⟩ := List.mem_filterMap.1 h
  unfold lockoutMessage at hx
  split at hx
  · rename_i hc
    cases hx
    exact hc.2
  · cases hx

theorem failPair_promptStep (env : Env) (p : String) (ip : Bool) (w : World) :
    failPair (promptStep env p ip w) = failPair w := by
  unfold promptStep failPair
  simp only []
  by_cases hc : (p != w.cs.prompt) = true
  · simp only [hc, if_true]
    split
    · rw [cs_waitForInput]
      cases env.wake _ <;> rfl
    · rfl
  · simp only [hc]
    split
    · rw [cs_waitForInput]
      cases env.wake _ <;> rfl
    · rfl

theorem failPair_convMessage (env : Env) (m : pam_message) (ip : Bool) (w : World) :
    failPair (convMessage env m ip w).world = storeLockout (failPair w) [m] := by
  by_cases hp : m.msg_style = PAM_PROMPT_ECHO_OFF ∨ m.msg_style = PAM_PROMPT_ECHO_ON
  · rw [world_convMessage_prompt env m ip w hp]
    have hs : m.msg_style ≠ PAM_TEXT_INFO := by
      rcases hp with h | h <;> rw [h] <;> decide
    have hl : lockoutMessage m = none := by simp [lockoutMessage, hs]
    have : storeLockout (failPair w) [m] = failPair w := by
      simp [storeLockout, lockoutMessages, hl]
    rw [this]
    exact failPair_promptStep env m.msg ip w
  · unfold convMessage
    rw [if_neg hp]
    by_cases he : m.msg_style = PAM_ERROR_MSG
    · rw [if_pos he]
      have hs : m.msg_style ≠ PAM_TEXT_INFO := by rw [he]; decide
      have hl : lockoutMessage m = none := by simp [lockoutMessage, hs]
      simp [storeLockout, lockoutMessages, hl, failPair]
    · rw [if_neg he]
      by_cases hi : m.msg_style = PAM_TEXT_INFO
      · rw [if_pos hi]
        unfold infoStep
        simp only []
        by_cases hc : strContains m.msg "left to unlock" = true
        · have hl : lockoutMessage m = some m.msg := by simp [lockoutMessage, hi, hc]
          simp [storeLockout, lockoutMessages, hl, failPair, hc]
        · have hl : lockoutMessage m = none := by simp [lockoutMessage, hc]
          simp [storeLockout, lockoutMessages, hl, failPair, hc]
      · rw [if_neg hi]
        have hl : lockoutMessage m = none := by simp [lockoutMessage, hi]
        simp [storeLockout, lockoutMessages, hl]

theorem failPair_convLoop (env : Env) (msgs : List pam_message) :
    ∀ (ip : Bool) (rs : List (Option String)) (w : World),
      failPair (convLoop env msgs ip rs w).world
        = storeLockout (failPair w) (convHandled env msgs ip w) := by
  induction msgs with
  | nil => intro ip rs w; rfl
  | cons m rest ih =>
    intro ip rs w
    unfold convLoop convHandled
    simp only []
    by_cases ha : (convMessage env m ip w).aborted = true
    · rw [if_pos ha, if_pos ha]
      exact failPair_convMessage env m ip w
    · rw [if_neg ha, if_neg ha, ih]
      have : m :: convHandled env rest (convMessage env m ip w).initialPrompt
          (convMessage env m ip w).world
          = [m] ++ convHandled env rest (convMessage env m ip w).initialPrompt
            (convMessage env m ip w).world := rfl
      rw [this, storeLockout_append, failPair_convMessage]

theorem failPair_pam_authenticate (env : Env) (s : PamScript) :
    ∀ w : World, failPair (pam_authenticate env s w).2
      = storeLockout (failPair w) (handled env s w) := by
  induction s with
  | finish ret => intro w; rfl
  | converse msgs next ih =>
    intro w
    unfold pam_authenticate handled
    simp only []
    rw [ih, storeLockout_append]
    unfold conv
    rw [failPair_convLoop]

theorem convMessage_not_aborted (env : Env) (hu : ∀ k, env.isUnlocked k = false)
    (m : pam_message) (ip : Bool) (w : World) : (convMessage env m ip w).aborted = false := by
  unfold convMessage
  split
  · simp only [isUnlocked, hu]
    rfl
  · split
    · rfl
    · split <;> rfl

theorem convHandled_all (env : Env) (hu : ∀ k, env.isUnlocked k = false)
    (msgs : List pam_message) :
    ∀ (ip : Bool) (w : World), convHandled env msgs ip w = msgs := by
  induction msgs with
  | nil => intro ip w; rfl
  | cons m rest ih =>
    intro ip w
    unfold convHandled
    rw [convMessage_not_aborted env hu, ih]
    rfl

theorem handled_eq_delivered (env : Env) (hu : ∀ k, env.isUnlocked k = false)
    (s : PamScript) : ∀ w : World, handled env s w = delivered env s w := by
  induction s with
  | finish ret => intro w; rfl
  | converse msgs next ih =>
    intro w
    unfold handled delivered
    rw [convHandled_all env hu, ih]

/-- C5 (as amended): after a failed attempt (the fallback path not taken, `pam_start`
succeeded, `pam_authenticate` returned a non-success code) during which the loop of the
callback reached an informational message containing `"left to unlock"` among the messages the
backend gave it, `getLastFailText()` returns exactly the text `m` of the last such message,
which is neither generic failure text. The loop reaches every message given to the callback
unless it returns `PAM_CONV_ERR` at a prompt; when `isUnlocked()` is never true, the messages
reached are all the messages given. -/
theorem lockout_text_kept (env : Env) (be : Backend) (F : String) (w : World) (m : String)
    (h : F = "" ∨ F ≠ password_hash w.cs.input) (hs : be.startRet = PAM_SUCCESS)
    (hret : (pam_authenticate env be.authenticate (atAuthenticate w)).1 ≠ PAM_SUCCESS)
    (hm : (lockoutMessages (handled env be.authenticate (atAuthenticate w))).getLast?
      = some m) :
    (auth env be F w).1 = false ∧
    getLastFailText (auth env be F w).2 = some m ∧
    m ≠ "Authentication failed" ∧ m ≠ "pam_authenticate failed" ∧
    ((∀ k, env.isUnlocked k = false) →
      handled env be.authenticate (atAuthenticate w)
        = delivered env be.authenticate (atAuthenticate w)) := by
  obtain ⟨h1, extra, e, _, _, _, _, _, _, hft⟩ := auth_failed_shape env be F w h hs hret
  have hfp := failPair_pam_authenticate env be.authenticate (atAuthenticate w)
  rw [storeLockout_getLast, hm] at hfp
  have hf1 : (pam_authenticate env be.authenticate (atAuthenticate w)).2.cs.failText = m :=
    congrArg Prod.fst hfp
  have hf2 : (pam_authenticate env be.authenticate (atAuthenticate w)).2.cs.failTextFromPam
      = true := congrArg Prod.snd hfp
  rw [hf2, hf1] at hft
  simp only [if_true] at hft
  have hc : strContains m "left to unlock" = true :=
    lockoutMessages_contains _ m (List.mem_of_getLast?_eq_some hm)
  have hne : m ≠ "" := strContains_ne_empty m _ (by decide) hc
  refine ⟨h1, ?_, ?_, ?_, fun hu => handled_eq_delivered env hu _ _⟩
  · unfold getLastFailText
    rw [hft]
    have : m.isEmpty = false := by
      cases hi : m.isEmpty
      · rfl
      · exact absurd ((String.isEmpty_iff m).1 hi) hne
    simp [this]
  · intro e1; rw [e1] at hc; revert hc; decide
  · intro e1; rw [e1] at hc; revert hc; decide

/-- C5 witness (amended claim): `pam_faillock` reports `"(10 minutes left to unlock)"` and the
attempt fails. -/
theorem lockout_text_kept_witness :
    (("" : String) = "" ∨ "" ≠ password_hash lockedWorld.cs.input) ∧
    faillockBackend.startRet = PAM_SUCCESS ∧
    (pam_authenticate lockedEnv faillockBackend.authenticate (atAuthenticate lockedWorld)).1
      ≠ PAM_SUCCESS ∧
    (lockoutMessages (handled lockedEnv faillockBackend.authenticate
      (atAuthenticate lockedWorld))).getLast? = some "(10 minutes left to unlock)" ∧
    ((auth lockedEnv faillockBackend "" lockedWorld).1 = false ∧
      getLastFailText (auth lockedEnv faillockBackend "" lockedWorld).2
        = some "(10 minutes left to unlock)" ∧
      "(10 minutes left to unlock)" ≠ "Authentication failed" ∧
      "(10 minutes left to unlock)" ≠ "pam_authenticate failed" ∧
      ((∀ k, lockedEnv.isUnlocked k = false) →
        handled lockedEnv faillockBackend.authenticate (atAuthenticate lockedWorld)
          = delivered lockedEnv faillockBackend.authenticate (atAuthenticate lockedWorld))) :=
  ⟨Or.inl rfl, rfl, by decide, by decide,
    lockout_text_kept lockedEnv faillockBackend "" lockedWorld "(10 minutes left to unlock)"
      (Or.inl rfl) rfl (by decide) (by decide)⟩

/-- Counterexample to C5 as stated: the backend gives the callback, in one invocation, the
password prompt and then the informational message `"(10 minutes left to unlock)"`; the session
is unlocked from outside, so the callback returns `PAM_CONV_ERR` at the prompt and never
reaches the message. `pam_start` succeeded, `pam_authenticate` fails, and `getLastFailText()`
returns `"pam_authenticate failed"`, not the lockout text the callback was given. -/
theorem lockout_text_unhandled_counterexample :
    faillockBatchBackend.startRet = PAM_SUCCESS ∧
    (pam_authenticate unlockedEnv faillockBatchBackend.authenticate
      (atAuthenticate lockedWorld)).1 ≠ PAM_SUCCESS ∧
    lockoutMessages (delivered unlockedEnv faillockBatchBackend.authenticate
      (atAuthenticate lockedWorld)) = ["(10 minutes left to unlock)"] ∧
    lockoutMessages (handled unlockedEnv faillockBatchBackend.authenticate
      (atAuthenticate lockedWorld)) = [] ∧
    (auth unlockedEnv faillockBatchBackend "" lockedWorld).1 = false ∧
    getLastFailText (auth unlockedEnv faillockBatchBackend "" lockedWorld).2
      = some "pam_authenticate failed" ∧
    getLastFailText (auth unlockedEnv faillockBatchBackend "" lockedWorld).2
      ≠ some "(10 minutes left to unlock)" := by
  decide

/-- C6 (as amended): in every attempt that reaches the backend and in which `pam_authenticate`
returns a non-success code (as it does after the callback aborted on `isUnlocked()`), `auth()`
returns false, and `failText` afterwards is the text marked as coming from PAM (the last lockout
text handled during the attempt, or else the text held before when `failTextFromPam` was already
set) when there is one, and otherwise the generic text chosen by the return code: it is
overwritten, not preserved. -/
theorem unlock_abort_fail_text (env : Env) (be : Backend) (F : String) (w : World)
    (h : F = "" ∨ F ≠ password_hash w.cs.input) (hs : be.startRet = PAM_SUCCESS)
    (hret : (pam_authenticate env be.authenticate (atAuthenticate w)).1 ≠ PAM_SUCCESS) :
    (auth env be F w).1 = false ∧
    (auth env be F w).2.cs.failText =
      if (failState (w.cs.failText, w.cs.failTextFromPam) (attemptTrace env be F w)).2 = true
      then (failState (w.cs.failText, w.cs.failTextFromPam) (attemptTrace env be F w)).1
      else genericFailText (pam_authenticate env be.authenticate (atAuthenticate w)).1 := by
  obtain ⟨h1, extra, e, ht, _, _, hl, _, hf, hft⟩ := auth_failed_shape env be F w h hs hret
  have hlt : lockoutTexts (attemptTrace env be F w) = lockoutTexts extra := by
    unfold attemptTrace
    rw [ht, List.drop_left]
    have e1 : lockoutText (.log .LOG "Unlocking with fallback password" []) = none := rfl
    have e2 : lockoutText (.pam_start w.auth.m_sPamModule) = none := rfl
    have e3 : lockoutText .pam_authenticate = none := rfl
    have e4 : lockoutText
      (.pam_end (pam_authenticate env be.authenticate (atAuthenticate w)).1) = none := rfl
    simp only [lockoutTexts, List.filterMap_append, List.filterMap_cons, List.filterMap_nil,
      hl, e1, e2, e3, e4, List.nil_append, List.append_nil]
  have hfs : failState (w.cs.failText, w.cs.failTextFromPam) (attemptTrace env be F w)
      = failState (w.cs.failText, w.cs.failTextFromPam) extra := by
    unfold failState; rw [hlt]
  rw [hfs, ← hf]
  exact ⟨h1, hft⟩

/-- C6 witness (amended claim): the session is unlocked from outside while the password prompt
is handled. -/
theorem unlock_abort_fail_text_witness :
    (("" : String) = "" ∨ "" ≠ password_hash lockedWorld.cs.input) ∧
    rejectingBackend.startRet = PAM_SUCCESS ∧
    (pam_authenticate unlockedEnv rejectingBackend.authenticate (atAuthenticate lockedWorld)).1
      ≠ PAM_SUCCESS ∧
    ((auth unlockedEnv rejectingBackend "" lockedWorld).1 = false ∧
      (auth unlockedEnv rejectingBackend "" lockedWorld).2.cs.failText =
        if (failState (lockedWorld.cs.failText, lockedWorld.cs.failTextFromPam)
              (attemptTrace unlockedEnv rejectingBackend "" lockedWorld)).2 = true
        then (failState (lockedWorld.cs.failText, lockedWorld.cs.failTextFromPam)
              (attemptTrace unlockedEnv rejectingBackend "" lockedWorld)).1
        else genericFailText (pam_authenticate unlockedEnv rejectingBackend.authenticate
              (atAuthenticate lockedWorld)).1) :=
  ⟨Or.inl rfl, rfl, by decide,
    unlock_abort_fail_text unlockedEnv rejectingBackend "" lockedWorld (Or.inl rfl) rfl
      (by decide)⟩

/-- Counterexample to C6 as stated: the callback sees `isUnlocked()` at the password prompt and
returns `PAM_CONV_ERR`, the backend returns `PAM_CONV_ERR`, `auth()` returns false, and
`failText`, empty before, is `"pam_authenticate failed"` afterwards. -/
theorem unlock_abort_counterexample :
    (conv unlockedEnv [⟨PAM_PROMPT_ECHO_OFF, "Password: "⟩] (atAuthenticate lockedWorld)).ret
      = PAM_CONV_ERR ∧
    (auth unlockedEnv rejectingBackend "" lockedWorld).1 = false ∧
    lockedWorld.cs.failText = "" ∧
    (auth unlockedEnv rejectingBackend "" lockedWorld).2.cs.failText = "pam_authenticate failed" ∧
    (auth unlockedEnv rejectingBackend "" lockedWorld).2.cs.failText
      ≠ lockedWorld.cs.failText := by
  decide

/-- C7: for every state and secret `s`, `submitInput(s)` yields `input = s`,
`inputRequested = false`, `waitingForPamAuth = true`, so the wait predicate holds whatever
`m_bTerminate` is; `prompt`, `failText` and `failTextFromPam` are unchanged; a call made without
a pending request differs only by the logged error; and a `waitForInput()` ended by that
submission returns with `s` as `input`. -/
theorem submitInput_unblocks (w : World) (s : String) :
    (submitInput s w).cs.input = s ∧
    (submitInput s w).cs.inputRequested = false ∧
    (submitInput s w).cs.waitingForPamAuth = true ∧
    (∀ m_bTerminate : Bool, waitPredicate m_bTerminate (submitInput s w) = true) ∧
    (submitInput s w).cs.prompt = w.cs.prompt ∧
    (submitInput s w).cs.failText = w.cs.failText ∧
    (submitInput s w).cs.failTextFromPam = w.cs.failTextFromPam ∧
    (submitInput s w).trace = w.trace ++
      (if w.cs.inputRequested = true then []
       else [.log .ERR "SubmitInput called, but the auth thread is not waiting for input!" []])
      ++ [.notify_all] ∧
    (∀ u : Nat → Bool,
      (waitForInput ⟨u, fun _ => .submitted s⟩ w).cs.input = s ∧
      (waitForInput ⟨u, fun _ => .submitted s⟩ w).cs.inputRequested = false ∧
      (waitForInput ⟨u, fun _ => .submitted s⟩ w).auth.m_bBlockInput = true) := by
  have hcs := cs_submitInput s w
  refine ⟨by rw [hcs], by rw [hcs], by rw [hcs], ?_, by rw [hcs], by rw [hcs], by rw [hcs],
    ?_, ?_⟩
  · intro t
    unfold waitPredicate
    rw [hcs]; rfl
  · unfold submitInput
    cases hreq : w.cs.inputRequested <;> simp [World.emit, World.setCs]
  · intro u
    have hw := cs_waitForInput ⟨u, fun _ => .submitted s⟩ w
    simp only at hw
    refine ⟨by rw [hw], by rw [hw], rfl⟩

/-- C4 at a failing input: with the recorded prompt `"Password: "` and the held secret
`"hunter2"`, the backend passes `"PIN: "` twice in one invocation. Handling the first prompt
makes no `waitForInput()` call and answers `"hunter2"` but leaves the recorded prompt as it
was, so the second, identical prompt counts as changed: handling it calls `waitForInput()` and
answers with the newly submitted `"123456"`, not with the secret that answered the first. -/
theorem repeated_prompt_waits_again :
    lockedWorld.cs.prompt = "Password: " ∧ lockedWorld.cs.input = "hunter2" ∧
    (convMessage lockedEnv ⟨PAM_PROMPT_ECHO_OFF, "PIN: "⟩ true lockedWorld).resp
      = some "hunter2" ∧
    waitForInputCalls
      (convMessage lockedEnv ⟨PAM_PROMPT_ECHO_OFF, "PIN: "⟩ true lockedWorld).world.trace = 0 ∧
    (convMessage lockedEnv ⟨PAM_PROMPT_ECHO_OFF, "PIN: "⟩ true lockedWorld).world.cs.prompt
      = "Password: " ∧
    (conv lockedEnv twoPinPrompts lockedWorld).ret = PAM_SUCCESS ∧
    (conv lockedEnv twoPinPrompts lockedWorld).resp = some [some "hunter2", some "123456"] ∧
    waitForInputCalls (conv lockedEnv twoPinPrompts lockedWorld).world.trace = 1 := by
  decide

/-- C9 at a failing input: the backend asks for the password and then, in a separate invocation
of the callback, for a verification code. The second prompt is not the first of the attempt and
differs from the recorded prompt `"Password: "`, yet it is answered with the held password
`"hunter2"` without any `waitForInput()` call, and the attempt fails; the same two prompts
passed in one invocation do make the callback wait and answer `"123456"`. -/
theorem changed_prompt_in_new_invocation_not_waited :
    (conv lockedEnv [⟨PAM_PROMPT_ECHO_OFF, "Password: "⟩] lockedWorld).world.cs.prompt
      = "Password: " ∧
    (conv lockedEnv [⟨PAM_PROMPT_ECHO_OFF, "Verification code: "⟩]
      (conv lockedEnv [⟨PAM_PROMPT_ECHO_OFF, "Password: "⟩] lockedWorld).world).resp
      = some [some "hunter2"] ∧
    waitForInputCalls (conv lockedEnv [⟨PAM_PROMPT_ECHO_OFF, "Verification code: "⟩]
      (conv lockedEnv [⟨PAM_PROMPT_ECHO_OFF, "Password: "⟩] lockedWorld).world).world.trace = 0 ∧
    waitForInputCalls (auth lockedEnv otpBackend "" lockedWorld).2.trace = 0 ∧
    (auth lockedEnv otpBackend "" lockedWorld).1 = false ∧
    (conv lockedEnv [⟨PAM_PROMPT_ECHO_OFF, "Password: "⟩,
      ⟨PAM_PROMPT_ECHO_OFF, "Verification code: "⟩] lockedWorld).resp
      = some [some "hunter2", some "123456"] ∧
    waitForInputCalls (conv lockedEnv [⟨PAM_PROMPT_ECHO_OFF, "Password: "⟩,
      ⟨PAM_PROMPT_ECHO_OFF, "Verification code: "⟩] lockedWorld).world.trace = 1 := by
  decide

/-- C10 at a failing input: `start()` sets the prompt `"Password: "`, the UI submits
`"hunter2"`, and the first prompt of the backend is `"Enter PIN: "`. The callback logs the
prompt, enqueues the timer update for a changed prompt and answers it, but the stored prompt is
not updated: `getLastPrompt()` still returns `"Password: "`. -/
theorem first_prompt_not_recorded :
    (conv lockedEnv [⟨PAM_PROMPT_ECHO_OFF, "Enter PIN: "⟩] lockedWorld).resp
      = some [some "hunter2"] ∧
    Event.enqueueForceUpdateTimers
      ∈ (conv lockedEnv [⟨PAM_PROMPT_ECHO_OFF, "Enter PIN: "⟩] lockedWorld).world.trace ∧
    (conv lockedEnv [⟨PAM_PROMPT_ECHO_OFF, "Enter PIN: "⟩] lockedWorld).world.cs.prompt
      = "Password: " ∧
    Event.log .LOG "PAM_PROMPT: \x7b\x7d" ["Enter PIN: "]
      ∈ (start typingEnv pinBackend "" freshWorld).trace ∧
    getLastPrompt (start typingEnv pinBackend "" freshWorld) = some "Password: " ∧
    getLastPrompt (start typingEnv pinBackend "" freshWorld) ≠ some "Enter PIN: " := by
  decide

/-- C3 (as amended): for an elapsed duration of `n` whole seconds (plus a fraction `r` of a
second) that is representable as an `int64_t` count of nanoseconds,
`getTimeSinceLockedString()` returns `pad2 (n / 3600) ++ ":" ++ pad2 (n % 3600 / 60) ++ ":" ++
pad2 (n % 60)`; the minute and second fields are below 60 and exactly two characters long; in
particular 0 s gives `"00:00:00"`, 65 s gives `"00:01:05"` and 3661 s gives `"01:01:01"`. -/
theorem getTimeSinceLockedString_format (startTime : Int) (n r : Nat)
    (hr : (r : Int) < ticksPerSecond)
    (hb : (n : Int) * ticksPerSecond + r ≤ 9223372036854775807) :
    getTimeSinceLockedString startTime (startTime + n * ticksPerSecond + r) =
      some (pad2 (n / 3600) ++ ":" ++ pad2 (n % 3600 / 60) ++ ":" ++ pad2 (n % 60)) ∧
    n % 3600 / 60 < 60 ∧ n % 60 < 60 ∧
    (pad2 (n % 3600 / 60)).length = 2 ∧ (pad2 (n % 60)).length = 2 ∧
    getTimeSinceLockedString startTime (startTime + (0 : Nat) * ticksPerSecond + r)
      = some "00:00:00" ∧
    getTimeSinceLockedString startTime (startTime + (65 : Nat) * ticksPerSecond + r)
      = some "00:01:05" ∧
    getTimeSinceLockedString startTime (startTime + (3661 : Nat) * ticksPerSecond + r)
      = some "01:01:01" := by
  have hm : n % 3600 / 60 < 60 := by omega
  have hs : n % 60 < 60 := by omega
  have hT : ticksPerSecond = 1000000000 := rfl
  have hr2 : (r : Int) < 1000000000 := hT ▸ hr
  refine ⟨getTimeSinceLockedString_eq startTime n r hr hb, hm, hs, pad2_length_two _ hm,
    pad2_length_two _ hs, ?_, ?_, ?_⟩
  · rw [getTimeSinceLockedString_eq startTime 0 r hr (by rw [hT]; push_cast; omega)]; rfl
  · rw [getTimeSinceLockedString_eq startTime 65 r hr (by rw [hT]; push_cast; omega)]; rfl
  · rw [getTimeSinceLockedString_eq startTime 3661 r hr (by rw [hT]; push_cast; omega)]; rfl

/-- C3 witness (amended claim): one hundred hours, one minute, five seconds and five ticks
after a lock at tick 1000. -/
theorem getTimeSinceLockedString_format_witness :
    ((5 : Nat) : Int) < ticksPerSecond ∧
    ((360065 : Nat) : Int) * ticksPerSecond + ((5 : Nat) : Int) ≤ 9223372036854775807 ∧
    getTimeSinceLockedString 1000 (1000 + (360065 : Nat) * ticksPerSecond + (5 : Nat))
      = some "100:01:05" :=
  ⟨by decide, by decide, by
    rw [(getTimeSinceLockedString_format 1000 360065 5 (by decide) (by decide)).1]; rfl⟩

/-- Counterexample to C3 as stated: the lock time `-1` and the current time `2 ^ 63 - 1` are
both `int64_t` tick counts, and the elapsed time between them is 9223372036 whole seconds and
854775808 ticks; the difference does not fit `int64_t` and wraps to `-2 ^ 63`, and the
returned string is `"0-2562047:0-47:0-16"`, not `"2562047:47:16"`. -/
theorem getTimeSinceLockedString_overflow_counterexample :
    isInt64 (-1) ∧ isInt64 9223372036854775807 ∧
    (9223372036854775807 : Int)
      = -1 + ((9223372036 : Nat) : Int) * ticksPerSecond + ((854775808 : Nat) : Int) ∧
    ((854775808 : Nat) : Int) < ticksPerSecond ∧
    some (pad2 (9223372036 / 3600) ++ ":" ++ pad2 (9223372036 % 3600 / 60) ++ ":"
      ++ pad2 (9223372036 % 60)) = some "2562047:47:16" ∧
    getTimeSinceLockedString (-1) 9223372036854775807 = some "0-2562047:0-47:0-16" ∧
    getTimeSinceLockedString (-1)
        (-1 + ((9223372036 : Nat) : Int) * ticksPerSecond + ((854775808 : Nat) : Int))
      ≠ some (pad2 (9223372036 / 3600) ++ ":" ++ pad2 (9223372036 % 3600 / 60) ++ ":"
          ++ pad2 (9223372036 % 60)) := by
  refine ⟨by unfold isInt64; decide, by unfold isInt64; decide, by decide, by decide,
    by decide, by decide, by decide⟩

/-- C8 witness: the state after `resetConversation`, entry into the wait and a submission. -/
theorem flags_never_both_true_witness :
    Reachable (submitInput "hunter2" (waitForInputEnter (resetConversation freshWorld))) ∧
    ¬ ((submitInput "hunter2" (waitForInputEnter (resetConversation freshWorld))).cs.inputRequested
        = true ∧
      (submitInput "hunter2" (waitForInputEnter (resetConversation freshWorld))).cs.waitingForPamAuth
        = true) :=
  ⟨.submit _ (.waitEnter (.init _)),
    flags_never_both_true _ (.submit _ (.waitEnter (.init _)))⟩

end Auth
